import Mathlib

/-!
Shallow embedding of the event-coordination and region-of-interest (ROI)
sampling core of a gem5 configuration repository:

  * util/event_managers/event_manager.py  (EventTime, EventCoordinator)
  * util/event_managers/roi/periodic.py   (PeriodicROIManager, Phase)
  * util/event_managers/roi/simple.py     (SimpleROIManager)

Python integers are modelled as Int, Python None-able values as Option,
Python generators as explicit step functions on state (for the single
generator that yields in mid-branch, the suspension point is carried in the
state), and side-effecting calls back into the coordinator (dump_stats,
reset_stats, switch_processor) as an emitted list of ManagerAction values.
-/

/-- Exit-event kinds dispatched by gem5's simulator, as used by
EventCoordinator.get_event_handlers. -/
inductive ExitEvent where
  | CHECKPOINT
  | MAX_INSTS
  | SIMPOINT_BEGIN
  | WORKBEGIN
  | WORKEND
  | EXIT
deriving DecidableEq, Repr

/-- Model of class EventTime: the time of an event, made of three units, any
combination of which can be present (instruction, cycle, tick), each an
optional Python int. -/
structure EventTime where
  instruction : Option Int
  cycle : Option Int
  tick : Option Int
deriving DecidableEq, Repr

/-- Model of EventTime.add: each unit of the sum is defined exactly when both
operands define it (the source guards each addition with two is-not-None
checks and otherwise leaves the initial None). -/
def EventTime.add (self other : EventTime) : EventTime :=
  { instruction :=
      match self.instruction, other.instruction with
      | some a, some b => some (a + b)
      | _, _ => none
    cycle :=
      match self.cycle, other.cycle with
      | some a, some b => some (a + b)
      | _, _ => none
    tick :=
      match self.tick, other.tick with
      | some a, some b => some (a + b)
      | _, _ => none }

/-- Side-effecting calls an event manager makes back through the coordinator
while handling an event. -/
inductive ManagerAction where
  | dump_stats
  | reset_stats
  | switch_processor
deriving DecidableEq, Repr

/-- Model of EventCoordinator.get_current_time: the zero point when the
simulator is absent or not instantiated, otherwise instruction is the
cumulative total plus the engine's live count, cycle is the cumulative cycle
total, and tick is 0. Every axis of the result is defined. -/
def EventCoordinator.get_current_time (registered instantiated : Bool)
    (total_instructions total_cycles sim_insts : Int) : EventTime :=
  if !registered || !instantiated then
    ⟨some 0, some 0, some 0⟩
  else
    ⟨some (total_instructions + sim_insts), some total_cycles, some 0⟩

/-- Model of the per-unit update inside EventCoordinator.schedule's loop:
closest is replaced by next exactly when next is defined and closest is
undefined or strictly greater. -/
def EventCoordinator.update_axis (closest next : Option Int) : Option Int :=
  match next with
  | none => closest
  | some n =>
    match closest with
    | none => some n
    | some c => if c > n then some n else some c

/-- One iteration of the manager loop in EventCoordinator.schedule, applied
unit-wise to the running closest event. -/
def EventCoordinator.merge_step (closest next_event : EventTime) : EventTime :=
  ⟨EventCoordinator.update_axis closest.instruction next_event.instruction,
   EventCoordinator.update_axis closest.cycle next_event.cycle,
   EventCoordinator.update_axis closest.tick next_event.tick⟩

/-- The closest-event computation of EventCoordinator.schedule: fold the
managers' next events over an initially all-undefined EventTime. -/
def EventCoordinator.merge_closest (next_events : List EventTime) : EventTime :=
  next_events.foldl EventCoordinator.merge_step ⟨none, none, none⟩

/-- Observable outcome of one EventCoordinator.schedule call: the argument
passed to simulator.schedule_max_insts, if any, and the message of the
NotImplementedError raised for a defined cycle or tick axis, if any. -/
structure ScheduleEffect where
  max_insts_request : Option Int
  unimplemented_error : Option String
deriving DecidableEq, Repr

/-- Model of EventCoordinator.schedule after the merge loop: schedule_max_insts
is called when the merged instruction axis and the current instruction are
defined and the simulator is present; then a defined cycle axis (with defined
current cycle) raises, else a defined tick axis (with defined current tick)
raises. -/
def EventCoordinator.schedule (registered : Bool) (current_time : EventTime)
    (next_events : List EventTime) : ScheduleEffect :=
  let closest_event := EventCoordinator.merge_closest next_events
  { max_insts_request :=
      if closest_event.instruction.isSome && current_time.instruction.isSome
          && registered then
        closest_event.instruction
      else
        none
    unimplemented_error :=
      if closest_event.cycle.isSome && current_time.cycle.isSome then
        some "Cycle scheduling not implemented yet."
      else if closest_event.tick.isSome && current_time.tick.isSome then
        some "Tick scheduling not implemented yet."
      else
        none }

/-- Abstract view of one registered manager, as the coordinator's dispatch
loops see it: which event kinds its handler table declares (event_type in
event_handlers), the value the next invocation of each handler yields (none
models a handler that yields a Python None), and its stored next event. -/
structure ManagerView where
  handles : ExitEvent → Bool
  verdict : ExitEvent → Option Bool
  next_event : EventTime

/-- Loop body of EventCoordinator.handle_unscheduled over the manager list:
every manager whose handler table declares the event kind is invoked, and its
result is OR-ed into the accumulator with a Python None counted as True.
Returns the managers invoked, in order, and the final accumulator. -/
def EventCoordinator.unscheduled_go (event_type : ExitEvent) :
    List ManagerView → Bool → List ManagerView × Bool
  | [], res => ([], res)
  | m :: rest, res =>
    if m.handles event_type then
      let manager_res : Option Bool := m.verdict event_type
      let res2 : Bool := res || (match manager_res with
        | none => true
        | some b => b)
      let tail := EventCoordinator.unscheduled_go event_type rest res2
      (m :: tail.1, tail.2)
    else
      EventCoordinator.unscheduled_go event_type rest res

/-- Model of one iteration of EventCoordinator.handle_unscheduled (one
dispatched event of an unscheduled kind): loop over all managers with the
accumulator starting at False. -/
def EventCoordinator.handle_unscheduled (event_type : ExitEvent)
    (managers : List ManagerView) : List ManagerView × Bool :=
  EventCoordinator.unscheduled_go event_type managers false

/-- Loop body of EventCoordinator.handle_max_insts over the manager list: a
manager is invoked when its handler table declares MAX_INSTS and its next
event's instruction and the current instruction are both defined with the
former at most the latter; its result is OR-ed in with a Python None counted
as False (manager_res or False). -/
def EventCoordinator.max_insts_go (curr_time : EventTime) :
    List ManagerView → Bool → List ManagerView × Bool
  | [], res => ([], res)
  | m :: rest, res =>
    if m.handles ExitEvent.MAX_INSTS
        && (match m.next_event.instruction, curr_time.instruction with
            | some e, some c => decide (e ≤ c)
            | _, _ => false) then
      let manager_res : Option Bool := m.verdict ExitEvent.MAX_INSTS
      let res2 : Bool := res || (match manager_res with
        | none => false
        | some b => b)
      let tail := EventCoordinator.max_insts_go curr_time rest res2
      (m :: tail.1, tail.2)
    else
      EventCoordinator.max_insts_go curr_time rest res

/-- Model of one iteration of EventCoordinator.handle_max_insts (one
dispatched MAX_INSTS event) at a given current time. -/
def EventCoordinator.handle_max_insts (curr_time : EventTime)
    (managers : List ManagerView) : List ManagerView × Bool :=
  EventCoordinator.max_insts_go curr_time managers false

/-- Phases of the periodic ROI manager (class Phase in periodic.py). -/
inductive Phase where
  | NO_WORK
  | FF_INIT
  | FF_WORK
  | WARMUP
  | ROI
deriving DecidableEq, Repr

/-- Constructor-resolved configuration of PeriodicROIManager. Intervals are
instruction counts (Python ints); num_rois is optional (None = unlimited). -/
structure PeriodicConfig where
  ff_interval : Int
  warmup_interval : Int
  roi_interval : Int
  init_ff_interval : Int
  num_rois : Option Int
  continue_sim : Bool
  start_on_workbegin : Bool
deriving DecidableEq, Repr

/-- Mutable state of a PeriodicROIManager between handler invocations:
completed_rois, current_phase and next_event mirror the instance attributes;
pending_resume is the program counter of the handle_max_insts generator,
true exactly when it is suspended at the yield True inside the
all-ROIs-completed branch (so the next invocation resumes at the
switch_processor call that follows it). -/
structure PeriodicState where
  completed_rois : Int
  current_phase : Phase
  next_event : EventTime
  pending_resume : Bool
deriving DecidableEq, Repr

/-- Model of PeriodicROIManager.get_initial_phase_and_event. -/
def PeriodicROIManager.get_initial_phase_and_event (cfg : PeriodicConfig) :
    Phase × EventTime :=
  if cfg.start_on_workbegin then
    (Phase.NO_WORK, ⟨none, none, none⟩)
  else if cfg.init_ff_interval > 0 then
    (Phase.FF_INIT, ⟨some cfg.init_ff_interval, none, none⟩)
  else
    (Phase.FF_WORK, ⟨some cfg.ff_interval, none, none⟩)

/-- State of a freshly constructed PeriodicROIManager: zero completed ROIs and
the initial phase and event. -/
def PeriodicROIManager.initial_state (cfg : PeriodicConfig) : PeriodicState :=
  { completed_rois := 0
    current_phase := (PeriodicROIManager.get_initial_phase_and_event cfg).1
    next_event := (PeriodicROIManager.get_initial_phase_and_event cfg).2
    pending_resume := false }

/-- Model of the Python condition num_rois and completed_rois >= num_rois:
None and 0 are falsy, any other int is truthy. -/
def PeriodicROIManager.num_rois_reached (num_rois : Option Int)
    (completed_rois : Int) : Bool :=
  match num_rois with
  | none => false
  | some n => n != 0 && decide (n ≤ completed_rois)

/-- Model of one invocation of the PeriodicROIManager.handle_max_insts
generator: returns the state after the invocation, the coordinator calls made
during it (in order), and the yielded stop verdict. When pending_resume is
set, the generator resumes just after its yield True, performing the
switch_processor call and the move to FF_WORK before yielding False. -/
def PeriodicROIManager.handle_max_insts (cfg : PeriodicConfig)
    (s : PeriodicState) : PeriodicState × List ManagerAction × Bool :=
  if s.pending_resume then
    ({ s with current_phase := Phase.FF_WORK, pending_resume := false },
     [ManagerAction.switch_processor], false)
  else
    match s.current_phase with
    | Phase.ROI =>
      let completed := s.completed_rois + 1
      if PeriodicROIManager.num_rois_reached cfg.num_rois completed then
        if cfg.continue_sim then
          ({ s with completed_rois := completed, current_phase := Phase.FF_WORK },
           [ManagerAction.dump_stats, ManagerAction.switch_processor], false)
        else
          ({ s with completed_rois := completed, pending_resume := true },
           [ManagerAction.dump_stats, ManagerAction.reset_stats], true)
      else
        ({ s with completed_rois := completed, current_phase := Phase.FF_WORK,
                  next_event := ⟨some cfg.ff_interval, none, none⟩ },
         [ManagerAction.dump_stats, ManagerAction.switch_processor], false)
    | Phase.WARMUP =>
      ({ s with current_phase := Phase.ROI,
                next_event := ⟨some cfg.roi_interval, none, none⟩ },
       [ManagerAction.reset_stats], false)
    | Phase.FF_WORK =>
      ({ s with current_phase := Phase.WARMUP,
                next_event := ⟨some cfg.warmup_interval, none, none⟩ },
       [ManagerAction.switch_processor], false)
    | Phase.FF_INIT =>
      ({ s with current_phase := Phase.FF_WORK,
                next_event := ⟨some cfg.ff_interval, none, none⟩ },
       [], false)
    | Phase.NO_WORK =>
      ({ s with next_event := ⟨none, none, none⟩ }, [], false)

/-- Model of one invocation of the PeriodicROIManager.handle_workbegin
generator. The source sets current_phase to FF_INIT before checking the
stored next event, so the error case carries the already-mutated state; the
truthiness test on init_ff_interval is Python's (nonzero). -/
def PeriodicROIManager.handle_workbegin (cfg : PeriodicConfig)
    (s : PeriodicState) : Except (String × PeriodicState) (PeriodicState × Bool) :=
  if cfg.init_ff_interval != 0 then
    let s1 := { s with current_phase := Phase.FF_INIT }
    match s1.next_event.instruction with
    | none => Except.error ("Next event instruction is None", s1)
    | some k =>
      Except.ok
        ({ s1 with next_event := ⟨some (k + cfg.init_ff_interval), none, none⟩ },
         false)
  else
    Except.ok
      ({ s with current_phase := Phase.FF_WORK,
                next_event := ⟨some cfg.ff_interval, none, none⟩ },
       false)

/-- Model of one invocation of the PeriodicROIManager.handle_workend
generator: dump stats and count the ROI when mid-ROI, then reset stats, move
to NO_WORK, and yield False. The stored next event is not touched. -/
def PeriodicROIManager.handle_workend (s : PeriodicState) :
    PeriodicState × List ManagerAction × Bool :=
  if s.current_phase = Phase.ROI then
    ({ s with completed_rois := s.completed_rois + 1,
              current_phase := Phase.NO_WORK },
     [ManagerAction.dump_stats, ManagerAction.reset_stats], false)
  else
    ({ s with current_phase := Phase.NO_WORK }, [ManagerAction.reset_stats], false)

/-- Iterate PeriodicROIManager.handle_max_insts, collecting for each
invocation the state after it, the actions performed and the verdict. -/
def PeriodicROIManager.run_max_insts (cfg : PeriodicConfig) :
    Nat → PeriodicState → List (PeriodicState × List ManagerAction × Bool)
  | 0, _ => []
  | Nat.succ n, s =>
    let step := PeriodicROIManager.handle_max_insts cfg s
    step :: PeriodicROIManager.run_max_insts cfg n step.1

/-- Model of one invocation of SimpleROIManager.handle_workbegin (an infinite
generator): switch processor, reset stats, yield False, on every invocation. -/
def SimpleROIManager.handle_workbegin (_invocation : Nat) :
    Option (List ManagerAction × Bool) :=
  some ([ManagerAction.switch_processor, ManagerAction.reset_stats], false)

/-- Model of one invocation of SimpleROIManager.handle_workend (an infinite
generator): dump stats, reset stats, switch processor, yield False, on every
invocation. -/
def SimpleROIManager.handle_workend (_invocation : Nat) :
    Option (List ManagerAction × Bool) :=
  some ([ManagerAction.dump_stats, ManagerAction.reset_stats, ManagerAction.switch_processor], false)

/-- Model of SimpleROIManager.handle_exit. Unlike the other handlers in the
repository, this generator has no loop: its body runs once, dumps stats and
yields True, after which the generator is exhausted, so a second invocation
raises StopIteration, modelled as none. -/
def SimpleROIManager.handle_exit : Nat → Option (List ManagerAction × Bool)
  | 0 => some ([ManagerAction.dump_stats], true)
  | Nat.succ _ => none

/-- Minimum of the defined values of a list of optional ints. Modelled from
the spec's words for the schedule merge: take the minimum defined value
across the list; when no value is defined, remain undefined. -/
def spec_min_defined : List (Option Int) → Option Int
  | [] => none
  | none :: rest => spec_min_defined rest
  | some v :: rest =>
    match spec_min_defined rest with
    | none => some v
    | some m => some (min v m)

/-- Combine two optional minima: a defined value wins over an undefined one,
and two defined values combine by min. -/
def opt_min : Option Int → Option Int → Option Int
  | none, b => b
  | some a, none => some a
  | some a, some b => some (min a b)

lemma update_axis_eq_opt_min (c n : Option Int) :
    EventCoordinator.update_axis c n = opt_min c n := by
  cases c with
  | none => cases n <;> rfl
  | some a =>
    cases n with
    | none => rfl
    | some b =>
      simp only [EventCoordinator.update_axis, opt_min]
      by_cases h : a > b
      · simp [h, min_eq_right h.le]
      · simp [h, min_eq_left (not_lt.mp h)]

lemma opt_min_assoc (a b c : Option Int) :
    opt_min (opt_min a b) c = opt_min a (opt_min b c) := by
  cases a <;> cases b <;> cases c <;> simp [opt_min, min_assoc]

lemma spec_min_defined_cons (x : Option Int) (xs : List (Option Int)) :
    spec_min_defined (x :: xs) = opt_min x (spec_min_defined xs) := by
  cases x with
  | none => rfl
  | some v => cases h : spec_min_defined xs <;> simp [spec_min_defined, opt_min, h]

lemma foldl_update_axis (xs : List (Option Int)) :
    ∀ acc : Option Int,
      xs.foldl EventCoordinator.update_axis acc = opt_min acc (spec_min_defined xs) := by
  induction xs with
  | nil => intro acc; cases acc <;> rfl
  | cons x xs ih =>
    intro acc
    rw [List.foldl_cons, ih, update_axis_eq_opt_min, opt_min_assoc,
      ← spec_min_defined_cons]

lemma merge_foldl_axes (next_events : List EventTime) :
    ∀ acc : EventTime,
      next_events.foldl EventCoordinator.merge_step acc
        = ⟨(next_events.map EventTime.instruction).foldl
              EventCoordinator.update_axis acc.instruction,
           (next_events.map EventTime.cycle).foldl
              EventCoordinator.update_axis acc.cycle,
           (next_events.map EventTime.tick).foldl
              EventCoordinator.update_axis acc.tick⟩ := by
  induction next_events with
  | nil => intro acc; rfl
  | cons e es ih => intro acc; rw [List.foldl_cons, ih]; rfl

lemma merge_closest_instruction (next_events : List EventTime) :
    (EventCoordinator.merge_closest next_events).instruction
      = spec_min_defined (next_events.map EventTime.instruction) := by
  show (next_events.foldl EventCoordinator.merge_step ⟨none, none, none⟩).instruction = _
  rw [merge_foldl_axes next_events ⟨none, none, none⟩]
  exact foldl_update_axis _ none

lemma merge_closest_cycle (next_events : List EventTime) :
    (EventCoordinator.merge_closest next_events).cycle
      = spec_min_defined (next_events.map EventTime.cycle) := by
  show (next_events.foldl EventCoordinator.merge_step ⟨none, none, none⟩).cycle = _
  rw [merge_foldl_axes next_events ⟨none, none, none⟩]
  exact foldl_update_axis _ none

lemma merge_closest_tick (next_events : List EventTime) :
    (EventCoordinator.merge_closest next_events).tick
      = spec_min_defined (next_events.map EventTime.tick) := by
  show (next_events.foldl EventCoordinator.merge_step ⟨none, none, none⟩).tick = _
  rw [merge_foldl_axes next_events ⟨none, none, none⟩]
  exact foldl_update_axis _ none

lemma get_current_time_instruction_isSome (registered instantiated : Bool)
    (total_instructions total_cycles sim_insts : Int) :
    (EventCoordinator.get_current_time registered instantiated
        total_instructions total_cycles sim_insts).instruction.isSome = true := by
  unfold EventCoordinator.get_current_time
  split <;> rfl

lemma get_current_time_cycle_isSome (registered instantiated : Bool)
    (total_instructions total_cycles sim_insts : Int) :
    (EventCoordinator.get_current_time registered instantiated
        total_instructions total_cycles sim_insts).cycle.isSome = true := by
  unfold EventCoordinator.get_current_time
  split <;> rfl

lemma get_current_time_tick_isSome (registered instantiated : Bool)
    (total_instructions total_cycles sim_insts : Int) :
    (EventCoordinator.get_current_time registered instantiated
        total_instructions total_cycles sim_insts).tick.isSome = true := by
  unfold EventCoordinator.get_current_time
  split <;> rfl

/-- C5: in the coordinator's schedule merge, each axis of the merged point is
the minimum of the defined values of that axis across all managers'
next-wakeups, an axis defined by no manager stays undefined, and the
instruction-count stop request passed to the engine (the argument of
schedule_max_insts, computed with a registered simulator at the coordinator's
current time) is the minimum defined instruction axis across all managers. -/
theorem schedule_merge_axiswise_min (next_events : List EventTime)
    (registered instantiated : Bool)
    (total_instructions total_cycles sim_insts : Int) :
    (EventCoordinator.merge_closest next_events).instruction
        = spec_min_defined (next_events.map EventTime.instruction)
    ∧ (EventCoordinator.merge_closest next_events).cycle
        = spec_min_defined (next_events.map EventTime.cycle)
    ∧ (EventCoordinator.merge_closest next_events).tick
        = spec_min_defined (next_events.map EventTime.tick)
    ∧ (EventCoordinator.schedule true
          (EventCoordinator.get_current_time registered instantiated
            total_instructions total_cycles sim_insts)
          next_events).max_insts_request
        = spec_min_defined (next_events.map EventTime.instruction) := by
  refine ⟨merge_closest_instruction next_events, merge_closest_cycle next_events,
    merge_closest_tick next_events, ?_⟩
  simp only [EventCoordinator.schedule,
    get_current_time_instruction_isSome registered instantiated
      total_instructions total_cycles sim_insts,
    Bool.and_true, Bool.true_and]
  rw [← merge_closest_instruction next_events]
  cases h : (EventCoordinator.merge_closest next_events).instruction <;> simp [h]

/-- C6: the coordinator's schedule step raises the unimplemented-axis error
(a NotImplementedError) exactly when the merged schedule's cycle axis or tick
axis is defined; when neither is defined, no such error is raised. -/
theorem schedule_unimplemented_axis_iff (simulator_present registered instantiated : Bool)
    (total_instructions total_cycles sim_insts : Int)
    (next_events : List EventTime) :
    (EventCoordinator.schedule simulator_present
        (EventCoordinator.get_current_time registered instantiated
          total_instructions total_cycles sim_insts)
        next_events).unimplemented_error.isSome
      = ((EventCoordinator.merge_closest next_events).cycle.isSome
         || (EventCoordinator.merge_closest next_events).tick.isSome) := by
  simp only [EventCoordinator.schedule,
    get_current_time_cycle_isSome registered instantiated
      total_instructions total_cycles sim_insts,
    get_current_time_tick_isSome registered instantiated
      total_instructions total_cycles sim_insts,
    Bool.and_true]
  cases hc : (EventCoordinator.merge_closest next_events).cycle.isSome <;>
    cases ht : (EventCoordinator.merge_closest next_events).tick.isSome <;>
      simp [hc, ht]

/-- C7: for all event times A and B and each of the three units, the unit of
the sum A.add B is defined iff both A and B define that unit, and when both
are defined it equals their sum; an absent unit is never treated as zero. -/
theorem eventtime_add_axiswise (A B : EventTime) :
    ((A.add B).instruction.isSome ↔ (A.instruction.isSome ∧ B.instruction.isSome))
    ∧ (∀ a b : Int, A.instruction = some a → B.instruction = some b →
        (A.add B).instruction = some (a + b))
    ∧ ((A.add B).cycle.isSome ↔ (A.cycle.isSome ∧ B.cycle.isSome))
    ∧ (∀ a b : Int, A.cycle = some a → B.cycle = some b →
        (A.add B).cycle = some (a + b))
    ∧ ((A.add B).tick.isSome ↔ (A.tick.isSome ∧ B.tick.isSome))
    ∧ (∀ a b : Int, A.tick = some a → B.tick = some b →
        (A.add B).tick = some (a + b)) := by
  refine ⟨?_, ?_, ?_, ?_, ?_, ?_⟩
  · cases hA : A.instruction <;> cases hB : B.instruction <;>
      simp [EventTime.add, hA, hB]
  · intro a b ha hb; simp [EventTime.add, ha, hb]
  · cases hA : A.cycle <;> cases hB : B.cycle <;> simp [EventTime.add, hA, hB]
  · intro a b ha hb; simp [EventTime.add, ha, hb]
  · cases hA : A.tick <;> cases hB : B.tick <;> simp [EventTime.add, hA, hB]
  · intro a b ha hb; simp [EventTime.add, ha, hb]

/-- Witness for eventtime_add_axiswise: concrete event times with a defined
and an undefined unit. -/
theorem eventtime_add_axiswise_witness :
    (EventTime.add ⟨some 1, none, some 2⟩ ⟨some 3, some 4, some 5⟩).instruction
      = some 4 :=
  (eventtime_add_axiswise ⟨some 1, none, some 2⟩ ⟨some 3, some 4, some 5⟩).2.1
    1 3 rfl rfl

lemma unscheduled_go_spec (event_type : ExitEvent) (managers : List ManagerView) :
    ∀ res : Bool,
      EventCoordinator.unscheduled_go event_type managers res
        = (managers.filter (fun m => m.handles event_type),
           res || managers.any (fun m =>
             m.handles event_type && (m.verdict event_type).getD true)) := by
  induction managers with
  | nil => intro res; simp [EventCoordinator.unscheduled_go]
  | cons m rest ih =>
    intro res
    cases hh : m.handles event_type
    · simp [EventCoordinator.unscheduled_go, hh, ih res]
    · cases hv : m.verdict event_type <;>
        simp [EventCoordinator.unscheduled_go, hh, hv, ih, Bool.or_assoc]

/-- C8: one dispatch of an unscheduled exit-event kind invokes exactly the
managers whose handler tables declare that kind, each exactly once, in
registration order, and the aggregate stop verdict is the OR over those
managers of their returned verdicts, a manager yielding no value (None)
counting as stop=true. -/
theorem unscheduled_dispatch_characterization (event_type : ExitEvent)
    (managers : List ManagerView)
    (hkind : event_type = ExitEvent.CHECKPOINT
      ∨ event_type = ExitEvent.SIMPOINT_BEGIN
      ∨ event_type = ExitEvent.WORKBEGIN
      ∨ event_type = ExitEvent.WORKEND
      ∨ event_type = ExitEvent.EXIT) :
    (EventCoordinator.handle_unscheduled event_type managers).1
        = managers.filter (fun m => m.handles event_type)
    ∧ (EventCoordinator.handle_unscheduled event_type managers).2
        = managers.any (fun m =>
            m.handles event_type && (m.verdict event_type).getD true) := by
  rw [EventCoordinator.handle_unscheduled, unscheduled_go_spec]
  exact ⟨rfl, Bool.false_or _⟩

/-- Concrete manager interested in WORKEND whose handler yields None. -/
def witness_manager_a : ManagerView :=
  { handles := fun e => decide (e = ExitEvent.WORKEND)
    verdict := fun _ => none
    next_event := ⟨none, none, none⟩ }

/-- Concrete manager interested in nothing. -/
def witness_manager_b : ManagerView :=
  { handles := fun _ => false
    verdict := fun _ => some false
    next_event := ⟨some 5, none, none⟩ }

/-- Witness for unscheduled_dispatch_characterization: a WORKEND dispatch to
a None-yielding interested manager and an uninterested one stops (None counts
as stop=true). -/
theorem unscheduled_dispatch_witness :
    (EventCoordinator.handle_unscheduled ExitEvent.WORKEND
        [witness_manager_a, witness_manager_b]).2 = true := by
  have h := unscheduled_dispatch_characterization ExitEvent.WORKEND
    [witness_manager_a, witness_manager_b]
    (Or.inr (Or.inr (Or.inr (Or.inl rfl))))
  rw [h.2]
  rfl

lemma max_insts_go_spec (curr_time : EventTime) (c : Int)
    (hc : curr_time.instruction = some c) (managers : List ManagerView) :
    ∀ res : Bool,
      EventCoordinator.max_insts_go curr_time managers res
        = (managers.filter (fun m =>
              m.handles ExitEvent.MAX_INSTS
                && m.next_event.instruction.elim false (fun e => decide (e ≤ c))),
           res || managers.any (fun m =>
              m.handles ExitEvent.MAX_INSTS
                && m.next_event.instruction.elim false (fun e => decide (e ≤ c))
                && (m.verdict ExitEvent.MAX_INSTS).getD false)) := by
  induction managers with
  | nil => intro res; simp [EventCoordinator.max_insts_go]
  | cons m rest ih =>
    intro res
    cases hni : m.next_event.instruction with
    | none =>
      cases hh : m.handles ExitEvent.MAX_INSTS <;>
        simp [EventCoordinator.max_insts_go, hc, hni, hh, ih, Option.elim]
    | some e =>
      cases hh : m.handles ExitEvent.MAX_INSTS
      · simp [EventCoordinator.max_insts_go, hc, hni, hh, ih, Option.elim]
      · by_cases hle : e ≤ c
        · cases hv : m.verdict ExitEvent.MAX_INSTS <;>
            simp [EventCoordinator.max_insts_go, hc, hni, hh, hv, hle, ih,
              Bool.or_assoc, Option.elim]
        · simp [EventCoordinator.max_insts_go, hc, hni, hh, hle, ih, Option.elim]

/-- C10: one MAX_INSTS dispatch at a current time whose instruction count is
c invokes exactly the managers that declare MAX_INSTS and whose stored
next-wakeup instruction is defined and at most c, in registration order; the
aggregate verdict is the OR over those managers of their returned verdicts,
a manager yielding no value (None) counting as stop=false — the opposite
default from unscheduled dispatch. -/
theorem max_insts_dispatch_characterization (curr_time : EventTime) (c : Int)
    (hc : curr_time.instruction = some c) (managers : List ManagerView) :
    (EventCoordinator.handle_max_insts curr_time managers).1
        = managers.filter (fun m =>
            m.handles ExitEvent.MAX_INSTS
              && m.next_event.instruction.elim false (fun e => decide (e ≤ c)))
    ∧ (EventCoordinator.handle_max_insts curr_time managers).2
        = managers.any (fun m =>
            m.handles ExitEvent.MAX_INSTS
              && m.next_event.instruction.elim false (fun e => decide (e ≤ c))
              && (m.verdict ExitEvent.MAX_INSTS).getD false) := by
  rw [EventCoordinator.handle_max_insts, max_insts_go_spec curr_time c hc]
  exact ⟨rfl, Bool.false_or _⟩

/-- Concrete manager interested in MAX_INSTS, due at instruction 5, whose
handler yields None. -/
def witness_manager_c : ManagerView :=
  { handles := fun e => decide (e = ExitEvent.MAX_INSTS)
    verdict := fun _ => none
    next_event := ⟨some 5, none, none⟩ }

/-- Witness for max_insts_dispatch_characterization: at instruction count 10
the due None-yielding manager is invoked yet the aggregate verdict is
continue (None counts as stop=false here). -/
theorem max_insts_dispatch_witness :
    (EventCoordinator.handle_max_insts ⟨some 10, none, none⟩
        [witness_manager_c]).1 = [witness_manager_c]
    ∧ (EventCoordinator.handle_max_insts ⟨some 10, none, none⟩
        [witness_manager_c]).2 = false := by
  have h := max_insts_dispatch_characterization ⟨some 10, none, none⟩ 10 rfl
    [witness_manager_c]
  refine ⟨?_, ?_⟩
  · rw [h.1]; rfl
  · rw [h.2]; rfl

/-- Sampling configuration of the spec's trace property: init_ff=100, ff=50,
warmup=20, roi=30, two ROIs, stop at the cap, no workbegin gating. -/
def sample_config : PeriodicConfig :=
  { ff_interval := 50
    warmup_interval := 20
    roi_interval := 30
    init_ff_interval := 100
    num_rois := some 2
    continue_sim := false
    start_on_workbegin := false }

/-- Same sampling configuration with continue_sim set. -/
def sample_config_continue : PeriodicConfig :=
  { sample_config with continue_sim := true }

/-- C1: with the sample configuration, the initial phase is FF_INIT with
wakeup 100 and the seven MAX_INSTS invocations produce exactly the phase
sequence FF_WORK(50), WARMUP(20), ROI(30), FF_WORK(50), WARMUP(20), ROI(30),
then stop=true, with dump_stats performed exactly twice (once per completed
ROI) and reset_stats exactly at the two WARMUP to ROI transitions plus once
at the final stop. -/
theorem periodic_sample_trace :
    PeriodicROIManager.initial_state sample_config
      = ⟨0, Phase.FF_INIT, ⟨some 100, none, none⟩, false⟩
    ∧ PeriodicROIManager.run_max_insts sample_config 7
        (PeriodicROIManager.initial_state sample_config)
      = [(⟨0, Phase.FF_WORK, ⟨some 50, none, none⟩, false⟩, [], false),
         (⟨0, Phase.WARMUP, ⟨some 20, none, none⟩, false⟩,
            [ManagerAction.switch_processor], false),
         (⟨0, Phase.ROI, ⟨some 30, none, none⟩, false⟩,
            [ManagerAction.reset_stats], false),
         (⟨1, Phase.FF_WORK, ⟨some 50, none, none⟩, false⟩,
            [ManagerAction.dump_stats, ManagerAction.switch_processor], false),
         (⟨1, Phase.WARMUP, ⟨some 20, none, none⟩, false⟩,
            [ManagerAction.switch_processor], false),
         (⟨1, Phase.ROI, ⟨some 30, none, none⟩, false⟩,
            [ManagerAction.reset_stats], false),
         (⟨2, Phase.ROI, ⟨some 30, none, none⟩, true⟩,
            [ManagerAction.dump_stats, ManagerAction.reset_stats], true)]
    ∧ ((PeriodicROIManager.run_max_insts sample_config 7
          (PeriodicROIManager.initial_state sample_config)).map
            (fun step => step.2.1)).flatten.count ManagerAction.dump_stats = 2
    ∧ ((PeriodicROIManager.run_max_insts sample_config 7
          (PeriodicROIManager.initial_state sample_config)).map
            (fun step => step.2.1)).flatten.count ManagerAction.reset_stats = 3 := by
  decide

/-- C2 evaluation at the failing input: with continue_sim, after the ROI cap
is reached at the seventh invocation the next-wakeup stays armed, so the
following MAX_INSTS invocations re-enter WARMUP and then ROI, resetting and
dumping statistics again — the run does not stay in fast-forward — though no
invocation returns stop=true. -/
theorem periodic_continue_sim_keeps_sampling :
    PeriodicROIManager.run_max_insts sample_config_continue 10
        (PeriodicROIManager.initial_state sample_config_continue)
      = [(⟨0, Phase.FF_WORK, ⟨some 50, none, none⟩, false⟩, [], false),
         (⟨0, Phase.WARMUP, ⟨some 20, none, none⟩, false⟩,
            [ManagerAction.switch_processor], false),
         (⟨0, Phase.ROI, ⟨some 30, none, none⟩, false⟩,
            [ManagerAction.reset_stats], false),
         (⟨1, Phase.FF_WORK, ⟨some 50, none, none⟩, false⟩,
            [ManagerAction.dump_stats, ManagerAction.switch_processor], false),
         (⟨1, Phase.WARMUP, ⟨some 20, none, none⟩, false⟩,
            [ManagerAction.switch_processor], false),
         (⟨1, Phase.ROI, ⟨some 30, none, none⟩, false⟩,
            [ManagerAction.reset_stats], false),
         (⟨2, Phase.FF_WORK, ⟨some 30, none, none⟩, false⟩,
            [ManagerAction.dump_stats, ManagerAction.switch_processor], false),
         (⟨2, Phase.WARMUP, ⟨some 20, none, none⟩, false⟩,
            [ManagerAction.switch_processor], false),
         (⟨2, Phase.ROI, ⟨some 30, none, none⟩, false⟩,
            [ManagerAction.reset_stats], false),
         (⟨3, Phase.FF_WORK, ⟨some 30, none, none⟩, false⟩,
            [ManagerAction.dump_stats, ManagerAction.switch_processor], false)] := by
  decide

/-- C3 counterexample: a WORKEND arriving mid-ROI with next-wakeup 30 leaves
the next-wakeup at instruction 30 — it is not cleared to all-undefined. -/
theorem workend_next_event_not_cleared :
    (PeriodicROIManager.handle_workend
        ⟨0, Phase.ROI, ⟨some 30, none, none⟩, false⟩).1.next_event
      = ⟨some 30, none, none⟩
    ∧ (PeriodicROIManager.handle_workend
        ⟨0, Phase.ROI, ⟨some 30, none, none⟩, false⟩).1.next_event
      ≠ ⟨none, none, none⟩ := by
  decide

/-- C3 amended: a WORKEND dispatch dumps statistics and increments the
completed-ROI count iff the phase is ROI, then resets statistics (the last
action), moves the phase to NO_WORK and continues the simulation; the
next-wakeup is left unchanged (it is only cleared by a later MAX_INSTS
invocation while in NO_WORK). -/
theorem workend_characterization (s : PeriodicState) :
    ((PeriodicROIManager.handle_workend s).2.1.count ManagerAction.dump_stats
        = if s.current_phase = Phase.ROI then 1 else 0)
    ∧ ((PeriodicROIManager.handle_workend s).1.completed_rois
        = s.completed_rois + (if s.current_phase = Phase.ROI then 1 else 0))
    ∧ (PeriodicROIManager.handle_workend s).2.1.count ManagerAction.reset_stats = 1
    ∧ (PeriodicROIManager.handle_workend s).2.1.getLast?
        = some ManagerAction.reset_stats
    ∧ (PeriodicROIManager.handle_workend s).1.current_phase = Phase.NO_WORK
    ∧ (PeriodicROIManager.handle_workend s).1.next_event = s.next_event
    ∧ (PeriodicROIManager.handle_workend s).2.2 = false := by
  obtain ⟨cr, cp, ne, pr⟩ := s
  cases cp <;> simp [PeriodicROIManager.handle_workend]

/-- Configuration gating the first phase on WORKBEGIN, with a positive
initial fast-forward interval. -/
def workbegin_gated_config : PeriodicConfig :=
  { sample_config with start_on_workbegin := true }

/-- C4 counterexample: in the NO_WORK state that start_on_workbegin
establishes (next-wakeup fully undefined), a WORKBEGIN with
init_ff_interval=100 raises ValueError instead of entering FF_INIT with
wakeup 100; and from FF_INIT with wakeup 100, a WORKBEGIN sets the wakeup to
200 = 100 + 100, not to the interval 100. -/
theorem workbegin_counterexample :
    PeriodicROIManager.initial_state workbegin_gated_config
      = ⟨0, Phase.NO_WORK, ⟨none, none, none⟩, false⟩
    ∧ PeriodicROIManager.handle_workbegin workbegin_gated_config
        ⟨0, Phase.NO_WORK, ⟨none, none, none⟩, false⟩
      = Except.error ("Next event instruction is None",
          ⟨0, Phase.FF_INIT, ⟨none, none, none⟩, false⟩)
    ∧ (PeriodicROIManager.handle_workbegin workbegin_gated_config
        ⟨0, Phase.NO_WORK, ⟨none, none, none⟩, false⟩).isOk = false
    ∧ PeriodicROIManager.handle_workbegin sample_config
        ⟨0, Phase.FF_INIT, ⟨some 100, none, none⟩, false⟩
      = Except.ok (⟨0, Phase.FF_INIT, ⟨some 200, none, none⟩, false⟩, false) := by
  refine ⟨rfl, rfl, rfl, rfl⟩

/-- C4 amended: on WORKBEGIN, when init_ff_interval is positive the manager
moves to FF_INIT and sets its next-wakeup instruction to the previous
next-wakeup instruction plus init_ff_interval, raising ValueError (the phase
already mutated to FF_INIT) when the previous next-wakeup instruction is
undefined; when init_ff_interval is zero it moves to FF_WORK with next-wakeup
ff_interval; every non-raising invocation returns stop=false. -/
theorem workbegin_characterization (cfg : PeriodicConfig) (s : PeriodicState) :
    (0 < cfg.init_ff_interval →
      ((∀ k : Int, s.next_event.instruction = some k →
          PeriodicROIManager.handle_workbegin cfg s
            = Except.ok
                ({ s with current_phase := Phase.FF_INIT,
                          next_event :=
                            ⟨some (k + cfg.init_ff_interval), none, none⟩ },
                 false))
        ∧ (s.next_event.instruction = none →
            PeriodicROIManager.handle_workbegin cfg s
              = Except.error ("Next event instruction is None",
                  { s with current_phase := Phase.FF_INIT }))))
    ∧ (cfg.init_ff_interval = 0 →
        PeriodicROIManager.handle_workbegin cfg s
          = Except.ok
              ({ s with current_phase := Phase.FF_WORK,
                        next_event := ⟨some cfg.ff_interval, none, none⟩ },
               false)) := by
  constructor
  · intro hpos
    constructor
    · intro k hk
      simp [PeriodicROIManager.handle_workbegin, bne_iff_ne, hpos.ne', hk]
    · intro hk
      simp [PeriodicROIManager.handle_workbegin, bne_iff_ne, hpos.ne', hk]
  · intro h0
    simp [PeriodicROIManager.handle_workbegin, h0]

/-- Witness for workbegin_characterization: a WORKBEGIN from NO_WORK with a
defined next-wakeup of 40 and init_ff_interval=100 yields FF_INIT with
next-wakeup 140 and stop=false. -/
theorem workbegin_characterization_witness :
    PeriodicROIManager.handle_workbegin sample_config
        ⟨0, Phase.NO_WORK, ⟨some 40, none, none⟩, false⟩
      = Except.ok (⟨0, Phase.FF_INIT, ⟨some 140, none, none⟩, false⟩, false) := by
  have h := (workbegin_characterization sample_config
      ⟨0, Phase.NO_WORK, ⟨some 40, none, none⟩, false⟩).1 (by decide)
  exact h.1 40 rfl

/-- C9 evaluation: SimpleROIManager performs, on every WORKEND invocation,
dump_stats, reset_stats, switch_processor in that order with stop=false; on
every WORKBEGIN invocation exactly one switch_processor and one reset_stats
with stop=false; the first EXIT invocation performs one dump_stats with
stop=true, but the EXIT generator has no loop (unlike every sibling
handler), so a second EXIT invocation finds it exhausted (StopIteration)
instead of dumping and stopping again. -/
theorem simple_roi_manager_handlers (n : Nat) :
    SimpleROIManager.handle_workbegin n
      = some ([ManagerAction.switch_processor, ManagerAction.reset_stats], false)
    ∧ SimpleROIManager.handle_workend n
      = some ([ManagerAction.dump_stats, ManagerAction.reset_stats,
               ManagerAction.switch_processor], false)
    ∧ SimpleROIManager.handle_exit 0 = some ([ManagerAction.dump_stats], true)
    ∧ SimpleROIManager.handle_exit (n + 1) = none :=
  ⟨rfl, rfl, rfl, rfl⟩
